import Mathlib

/-!
Verification development for the MovieBase repository: a shallow embedding of
the pagination/search state machine (`SearchPage`, `NowPlayingPage`), the modal
presenter (`Modal`), the detail aggregation flow (`openMovieDetails`), and the
pure rendering helpers (`formatRating`, `truncateText`, `truncateOverview`,
`escapeHtml`), together with theorems settling the specification's claims.

Modelling conventions:
- JavaScript strings are `String` where only opaque identity matters, and
  `List Nat` (UTF-16 code units) where truncation inside the string matters.
- JS numbers that can be `null`/`undefined`/`NaN` are modelled by `JSNum`;
  a present value is an exact rational (the claims' concrete inputs do not
  depend on binary floating point: `7.555` rounds to `7.6` either way).
- The single-threaded event loop is modelled by a small-step system: each
  `async` function is split at its `await` point into a synchronous prefix
  (an `invoke` event) and a continuation (a `settle` event carrying the
  outcome of the awaited remote call); any interleaving of events is a run.
-/

/-- Model of a JS number-valued field that may be `null`, `undefined` or `NaN`
(as `movie.vote_average` can be). A present finite value is an exact rational. -/
inductive JSNum where
  | null
  | undefined
  | nan
  | num (q : ℚ)
deriving DecidableEq

/-- JS truthiness of a `JSNum`: `null`, `undefined`, `NaN` and `0` are falsy. -/
def JSNum.truthy : JSNum → Bool
  | .num q => decide (q ≠ 0)
  | _ => false

/-- Model of JS `x.toFixed(1)` for an exact rational: the integer `n` closest to
`10 * x` (the larger one on a tie, as ECMA-262 specifies for nonnegative `x`),
rendered as the digits of `n / 10`, a dot, and the digit `n % 10`. Computed on
the numerator and denominator directly: `n = ⌊(20 * num + den) / (2 * den)⌋`,
which equals `⌊10 * q + 1 / 2⌋` since `den > 0`. -/
def toFixed1 (q : ℚ) : String :=
  let n : ℤ := Int.fdiv (20 * q.num + q.den) (2 * q.den)
  toString (n / 10) ++ "." ++ toString (n % 10)

/-- From `SearchPage.createMovieCard` / `NowPlayingPage.createMovieCard`:
`const rating = movie.vote_average ? movie.vote_average.toFixed(1) : "N/A"` —
the rating shown on feed cards, selected by JS truthiness of `vote_average`. -/
def cardRating (voteAverage : JSNum) : String :=
  if voteAverage.truthy then
    match voteAverage with
    | .num q => toFixed1 q
    | _ => "N/A"
  else "N/A"

/-- From `MovieCard.formatRating`: returns "N/A" when `vote_average` is `null`,
`undefined` or `NaN` (explicit checks), otherwise `parseFloat(v).toFixed(1)`. -/
def MovieCard.formatRating (voteAverage : JSNum) : String :=
  match voteAverage with
  | .null => "N/A"
  | .undefined => "N/A"
  | .nan => "N/A"
  | .num q => toFixed1 q

/-- A JS string as its sequence of UTF-16 code units (what `.length`,
`.substring` and `.charAt` operate on). -/
abbrev U16Str := List Nat

/-- The three-unit ellipsis `"..."` appended by both truncation helpers. -/
def ellipsisU : U16Str := [46, 46, 46]

/-- From `SearchPage.truncateText` (also `NowPlayingPage.truncateText` and
`MovieCard.truncateText`, all identical):
`text.length > maxLength ? text.substring(0, maxLength) + "..." : text`.
The falsy guard `if (!text) return ""` only matters for `null`/`undefined`
input (the empty string already returns itself) and is dropped from the model. -/
def SearchPage.truncateText (text : U16Str) (maxLength : Nat) : U16Str :=
  if text.length > maxLength then text.take maxLength ++ ellipsisU
  else text

/-- Code units removed by JS `String.prototype.trim` (WhiteSpace and
LineTerminator code points, as UTF-16 units). -/
def isJsWhitespace (u : Nat) : Bool :=
  u = 9 ∨ u = 10 ∨ u = 11 ∨ u = 12 ∨ u = 13 ∨ u = 32 ∨ u = 160 ∨ u = 5760 ∨
  (8192 ≤ u ∧ u ≤ 8202) ∨ u = 8232 ∨ u = 8233 ∨ u = 8239 ∨ u = 8287 ∨
  u = 12288 ∨ u = 65279

/-- JS `s.trim()`: drop the whitespace prefix and suffix. -/
def trimU16 (s : U16Str) : U16Str :=
  ((s.dropWhile isJsWhitespace).reverse.dropWhile isJsWhitespace).reverse

/-- From `MovieCard.truncateOverview`: returns the overview unchanged when its
length is at most `overviewLength`, else
`overview.substring(0, maxLength).trim() + "..."`. -/
def MovieCard.truncateOverview (overview : U16Str) (maxLength : Nat) : U16Str :=
  if overview.length ≤ maxLength then overview
  else trimU16 (overview.take maxLength) ++ ellipsisU

/-- A UTF-16 high surrogate unit (first half of an astral code point). -/
def isHighSurrogate (u : Nat) : Bool := 0xD800 ≤ u ∧ u ≤ 0xDBFF

/-- A UTF-16 low surrogate unit (second half of an astral code point). -/
def isLowSurrogate (u : Nat) : Bool := 0xDC00 ≤ u ∧ u ≤ 0xDFFF

/-- Well-formed UTF-16: every high surrogate is immediately followed by a low
surrogate and no low surrogate appears unpaired. Code-point-safe truncation
must map well-formed input to well-formed output. -/
def wellFormedUtf16 : U16Str → Bool
  | [] => true
  | [u] => !isHighSurrogate u && !isLowSurrogate u
  | u :: v :: rest =>
    if isHighSurrogate u then isLowSurrogate v && wellFormedUtf16 rest
    else !isLowSurrogate u && wellFormedUtf16 (v :: rest)


/-- Replace every occurrence of the character `c` by the character list `r`:
one pass of JS `s.replace(/c/g, r)`. -/
def replaceAll (c : Char) (r : List Char) : List Char → List Char
  | [] => []
  | x :: s => (if x = c then r else [x]) ++ replaceAll c r s

/-- The ampersand character. -/
def ampC : Char := '&'

/-- The less-than character. -/
def ltC : Char := '<'

/-- The greater-than character. -/
def gtC : Char := '>'

/-- The double-quote character (code 34). -/
def quotC : Char := Char.ofNat 34

/-- The single-quote character (code 39). -/
def aposC : Char := Char.ofNat 39

/-- The entity `&amp;`. -/
def ampEnt : List Char := "&amp;".toList

/-- The entity `&lt;`. -/
def ltEnt : List Char := "&lt;".toList

/-- The entity `&gt;`. -/
def gtEnt : List Char := "&gt;".toList

/-- The entity `&quot;`. -/
def quotEnt : List Char := "&quot;".toList

/-- The entity `&#039;`. -/
def aposEnt : List Char := "&#039;".toList

/-- The five chained global replaces of `MovieCard.escapeHtml`, ampersand
first, then `<`, `>`, `"`, `'` (the order in the source). -/
def escapeCore (s : List Char) : List Char :=
  replaceAll aposC aposEnt
    (replaceAll quotC quotEnt
      (replaceAll gtC gtEnt
        (replaceAll ltC ltEnt
          (replaceAll ampC ampEnt s))))

/-- From `MovieCard.escapeHtml`: `if (!unsafe) return ""`, then the five chained
global replaces (`escapeCore`). `none` models a `null`/`undefined` argument;
the empty string is also falsy. -/
def MovieCard.escapeHtml (raw : Option (List Char)) : List Char :=
  match raw with
  | none => []
  | some s =>
    if s = [] then []
    else escapeCore s

/-- One-character escaping table: the per-character semantics that the five
sequential passes of `MovieCard.escapeHtml` are proved to implement. -/
def escChar (x : Char) : List Char :=
  if x = ampC then ampEnt
  else if x = ltC then ltEnt
  else if x = gtC then gtEnt
  else if x = quotC then quotEnt
  else if x = aposC then aposEnt
  else [x]

/-- Character-by-character escaping of a whole string via `escChar`. -/
def escAll : List Char → List Char
  | [] => []
  | x :: s => escChar x ++ escAll s


/-- A catalog item, reduced to its opaque id (items are never inspected by the
paging protocol, only appended). -/
abbrev Item := Nat

/-- One remote page response, `{results, page, total_pages}` as returned by
`TMDbAPI.searchMovies` / `TMDbAPI.getNowPlayingMovies`. The controllers never
read `page`; it is carried so claims about the response's page number can be
stated. -/
structure PageData where
  results : List Item
  page : Nat
  total_pages : Nat
deriving DecidableEq

/-- Outcome of an awaited remote page fetch: resolved with data, or rejected. -/
inductive FetchOutcome where
  | ok (data : PageData)
  | err
deriving DecidableEq

/-- The mutable per-controller fields shared by `SearchPage` and
`NowPlayingPage` (constructor of each class). `searchResults` doubles as
`NowPlayingPage.movies`; `searchQuery` stays `""` on the browse controller,
which has no query. -/
structure FeedState where
  currentPage : Nat
  isLoading : Bool
  hasMorePages : Bool
  searchQuery : String
  searchResults : List Item
deriving DecidableEq

/-- Constructor values: `currentPage = 1`, `isLoading = false`,
`hasMorePages = true`, `searchQuery = ""`, empty result list. -/
def FeedState.mk0 : FeedState :=
  { currentPage := 1, isLoading := false, hasMorePages := true,
    searchQuery := "", searchResults := [] }

/-- Observable render-sink effects emitted by a controller. -/
inductive Signal where
  | rendered (items : List Item)
  | noResults
  | errorShown
deriving DecidableEq

/-- A feed controller together with the event-loop context: the in-flight
remote fetches (`pending`, oldest first, tagged with the query and page they
were issued for), a log of every fetch ever issued, a log of every resolved
fetch whose items were appended, and the emitted render signals. -/
structure Sys where
  st : FeedState
  pending : List (String × Nat)
  fetchLog : List (String × Nat)
  settledLog : List ((String × Nat) × List Item)
  signals : List Signal
deriving DecidableEq

/-- The freshly constructed controller with no event-loop activity. -/
def Sys.init : Sys :=
  { st := FeedState.mk0, pending := [], fetchLog := [], settledLog := [],
    signals := [] }

/-- Which of the two feed controllers is running. -/
inductive Kind where
  | browse
  | search
deriving DecidableEq

/-- The early-return guard at the top of the fetch operation:
`NowPlayingPage.loadMovies` checks `this.isLoading || !this.hasMorePages`;
`SearchPage.loadSearchResults` additionally checks `!this.searchQuery`. -/
def guardBlocks (k : Kind) (s : FeedState) : Bool :=
  match k with
  | .browse => s.isLoading || !s.hasMorePages
  | .search => s.isLoading || !s.hasMorePages || s.searchQuery == ""

/-- Synchronous prefix of `loadSearchResults` / `loadMovies` up to the `await`:
if the guard does not block, set `isLoading = true` and issue the remote
request for the current query and cursor. -/
def invokeFetch (k : Kind) (s : Sys) : Sys :=
  if guardBlocks k s.st then s
  else
    let f := (s.st.searchQuery, s.st.currentPage)
    { s with st := { s.st with isLoading := true },
             pending := s.pending ++ [f],
             fetchLog := s.fetchLog ++ [f] }

/-- Continuation of `loadSearchResults` / `loadMovies` after the `await`, run
against the state at settlement time. On resolved nonempty results: append to
the list, render them, increment the cursor, recompute `hasMorePages` from the
incremented cursor and the response's `total_pages`. On resolved empty results:
`hasMorePages = false`, and the search controller shows the no-results state
when the cursor is still 1. On rejection: show the error message. The
`finally` block clears `isLoading` on every path. A `settle` with nothing
pending has no fetch to resolve and does nothing. -/
def settleFetch (k : Kind) (out : FetchOutcome) (s : Sys) : Sys :=
  match s.pending with
  | [] => s
  | f :: rest =>
    match out with
    | .ok data =>
      if data.results.isEmpty then
        { s with
          st := { s.st with hasMorePages := false, isLoading := false },
          pending := rest,
          signals := s.signals ++
            (if k = .search ∧ s.st.currentPage = 1 then [.noResults] else []) }
      else
        { s with
          st := { s.st with
            searchResults := s.st.searchResults ++ data.results,
            currentPage := s.st.currentPage + 1,
            hasMorePages := decide (s.st.currentPage + 1 ≤ data.total_pages),
            isLoading := false },
          pending := rest,
          settledLog := s.settledLog ++ [(f, data.results)],
          signals := s.signals ++ [.rendered data.results] }
    | .err =>
      { s with
        st := { s.st with isLoading := false },
        pending := rest,
        signals := s.signals ++ [.errorShown] }

/-- From `SearchPage.performSearch`: no-op when the committed query equals the
active one; otherwise set the new query, reset cursor to 1, `hasMorePages` to
true and the result list to empty, then run `loadSearchResults` (whose
synchronous prefix is `invokeFetch`). -/
def SearchPage.performSearch (query : String) (s : Sys) : Sys :=
  if query == s.st.searchQuery then s
  else
    invokeFetch .search
      { s with st := { s.st with
          searchQuery := query,
          currentPage := 1,
          hasMorePages := true,
          searchResults := [] } }

/-- An event-loop event against one feed controller: a continuation trigger
(scroll-proximity intersection invoking the fetch operation), the settlement of
the oldest in-flight fetch, or a query commit (search controller only; the
browse controller has no such operation, so `commit` is inert there). -/
inductive Ev where
  | invoke
  | settle (out : FetchOutcome)
  | commit (q : String)

/-- One event-loop step of controller kind `k`. -/
def stepFeed (k : Kind) (s : Sys) : Ev → Sys
  | .invoke => invokeFetch k s
  | .settle out => settleFetch k out s
  | .commit q =>
    match k with
    | .search => SearchPage.performSearch q s
    | .browse => s

/-- Run a list of event-loop events from a state. -/
def runFeed (k : Kind) (s : Sys) : List Ev → Sys
  | [] => s
  | e :: evs => runFeed k (stepFeed k s e) evs


/-- The `Modal` instance state (`part_002`): the `isOpen` flag, the
`modal-body` innerHTML, overlay visibility (`style.display == "flex"`) and
the body scroll lock (`document.body.style.overflow == "hidden"`). The 300 ms
close animation timer is collapsed to its completion. -/
structure ModalState where
  isOpen : Bool
  body : String
  overlayShown : Bool
  scrollLocked : Bool
deriving DecidableEq

/-- Constructor state of `Modal`: closed, empty body. -/
def ModalState.mk0 : ModalState :=
  { isOpen := false, body := "", overlayShown := false, scrollLocked := false }

/-- From `Modal.open`: `if (this.isOpen) return;` then set the body to the
given content, show the overlay, set `isOpen`, and lock body scroll. -/
def Modal.openModal (content : String) (m : ModalState) : ModalState :=
  if m.isOpen then m
  else { m with body := content, overlayShown := true, isOpen := true,
                scrollLocked := true }

/-- From `Modal.close`: `if (!this.isOpen) return;` then (after the animation
timeout) hide the overlay, clear `isOpen`, and release the scroll lock. The
body content is not cleared. -/
def Modal.closeModal (m : ModalState) : ModalState :=
  if !m.isOpen then m
  else { m with overlayShown := false, isOpen := false, scrollLocked := false }

/-- From `Modal.setContent`: unconditionally overwrite the `modal-body`
innerHTML. There is no check of `isOpen` and no item-id guard. -/
def Modal.setContent (content : String) (m : ModalState) : ModalState :=
  { m with body := content }

/-- The loading placeholder `SearchPage.openMovieDetails` passes to
`Modal.open`. -/
def loadingHtml : String :=
  "<div class=\"loading-movie-details\">Loading movie details...</div>"

/-- The error body `openMovieDetails` passes to `Modal.setContent` when any of
the four sub-fetches rejects. -/
def detailsErrorHtml : String :=
  "<div class=\"error\">Failed to load movie details. Please try again.</div>"

/-- Stands for the output of `createMovieDetailsContent` for the movie with
this id (the merged details/videos/reviews/similar panel); distinct movies
produce distinct panels. -/
def detailsContent (id : Nat) : String :=
  "<div class=\"movie-details\" data-movie-id=\"" ++ toString id ++ "\"></div>"

/-- The modal plus the in-flight detail aggregations: ids whose `Promise.all`
of the four sub-fetches has been issued and has not settled yet, oldest
first. -/
structure AggSys where
  modal : ModalState
  pendingAgg : List Nat
deriving DecidableEq

/-- Fresh page: modal constructed and closed, no aggregation in flight. -/
def AggSys.init : AggSys :=
  { modal := ModalState.mk0, pendingAgg := [] }

/-- Synchronous prefix of `SearchPage.openMovieDetails` (identical in
`NowPlayingPage` and `MovieCard`): call `Modal.open` with the loading
placeholder (a no-op if the modal is already open), then issue the four
parallel fetches for this movie id. -/
def openMovieDetails (id : Nat) (s : AggSys) : AggSys :=
  { modal := Modal.openModal loadingHtml s.modal,
    pendingAgg := s.pendingAgg ++ [id] }

/-- Outcome of a detail aggregation: all four sub-fetches resolved, or at
least one rejected (`Promise.all` rejects). -/
inductive AggOutcome where
  | ok
  | err

/-- Continuation of `openMovieDetails` after `await Promise.all`: build the
details content and call `Modal.setContent` (or set the error body on
rejection). The write is unconditional — nothing verifies that the modal still
targets this movie id. A settle for an id that is not in flight does nothing. -/
def settleDetails (id : Nat) (out : AggOutcome) (s : AggSys) : AggSys :=
  if id ∈ s.pendingAgg then
    { modal := Modal.setContent
        (match out with
         | .ok => detailsContent id
         | .err => detailsErrorHtml) s.modal,
      pendingAgg := s.pendingAgg.erase id }
  else s

/-- An event-loop event for the modal/detail-aggregation subsystem: a card
click, the settlement of one aggregation, or a user close (close button,
overlay click or Escape). -/
inductive MEv where
  | openD (id : Nat)
  | settleD (id : Nat) (out : AggOutcome)
  | closeM

/-- One event-loop step of the modal/aggregator subsystem. -/
def stepAgg (s : AggSys) : MEv → AggSys
  | .openD id => openMovieDetails id s
  | .settleD id out => settleDetails id out s
  | .closeM => { s with modal := Modal.closeModal s.modal }

/-- Run a list of modal/aggregator events from a state. -/
def runAgg (s : AggSys) : List MEv → AggSys
  | [] => s
  | e :: evs => runAgg (stepAgg s e) evs


/-- Whether an event is a query commit (used to state runs without commits). -/
def isCommit : Ev → Bool
  | .commit _ => true
  | _ => false

/-- Inductive invariant for the single-flight property: the number of pending
remote fetches is exactly one when `isLoading` is set and zero otherwise. -/
def FlightInv (s : Sys) : Prop :=
  s.pending.length = if s.st.isLoading then 1 else 0

/-- Inductive invariant for the query-reset property: after a commit of query
`q`, the active query is `q`, every in-flight fetch is tagged `q`, and the
result list is exactly the concatenation of the batches appended since the
commit (`settledLog` grew from `base`), all delivered by fetches tagged `q`. -/
def QueryResetInv (q : String) (base : List ((String × Nat) × List Item))
    (t : Sys) : Prop :=
  t.st.searchQuery = q ∧
  (∀ f ∈ t.pending, f.1 = q) ∧
  ∃ L, t.settledLog = base ++ L ∧
    t.st.searchResults = (L.map Prod.snd).flatten ∧
    ∀ e ∈ L, e.1.1 = q

/-- Concrete controller state for the C5 witness: cursor at page 3 of an
active "dune" search whose page-3 fetch is in flight. -/
def sysAtPage3 : Sys :=
  { Sys.init with
      st := { FeedState.mk0 with
                currentPage := 3,
                isLoading := true,
                searchQuery := "dune" },
      pending := [("dune", 3)] }

/-- Concrete last-page response for the C5 witness: page 3 of 3, one item. -/
def lastPageData : PageData :=
  { results := [9], page := 3, total_pages := 3 }

/-- Concrete start state for the C4 witness: idle search controller whose
active query is "q1", nothing in flight. -/
def sysActiveQ1 : Sys :=
  { Sys.init with st := { FeedState.mk0 with searchQuery := "q1" } }

set_option maxRecDepth 8000

theorem replaceAll_append (c : Char) (r a b : List Char) :
    replaceAll c r (a ++ b) = replaceAll c r a ++ replaceAll c r b := by
  induction a with
  | nil => rfl
  | cons x s ih => simp [replaceAll, ih]

theorem escapeCore_append (a b : List Char) :
    escapeCore (a ++ b) = escapeCore a ++ escapeCore b := by
  simp [escapeCore, replaceAll_append]

theorem escapeCore_single (x : Char) : escapeCore [x] = escChar x := by
  by_cases h1 : x = ampC
  · rw [h1]; decide
  by_cases h2 : x = ltC
  · rw [h2]; decide
  by_cases h3 : x = gtC
  · rw [h3]; decide
  by_cases h4 : x = quotC
  · rw [h4]; decide
  by_cases h5 : x = aposC
  · rw [h5]; decide
  simp [escapeCore, replaceAll, escChar, h1, h2, h3, h4, h5]

theorem escapeCore_eq_escAll (s : List Char) : escapeCore s = escAll s := by
  induction s with
  | nil => rfl
  | cons x s ih =>
    have hx : x :: s = [x] ++ s := rfl
    rw [hx, escapeCore_append, escapeCore_single, ih]
    rfl

theorem escChar_not_special (x : Char) :
    ∀ c ∈ escChar x, c ≠ ltC ∧ c ≠ gtC ∧ c ≠ quotC ∧ c ≠ aposC := by
  intro c hc
  unfold escChar at hc
  split_ifs at hc with h1 h2 h3 h4 h5
  · exact (by decide : ∀ c ∈ ampEnt, c ≠ ltC ∧ c ≠ gtC ∧ c ≠ quotC ∧ c ≠ aposC) c hc
  · exact (by decide : ∀ c ∈ ltEnt, c ≠ ltC ∧ c ≠ gtC ∧ c ≠ quotC ∧ c ≠ aposC) c hc
  · exact (by decide : ∀ c ∈ gtEnt, c ≠ ltC ∧ c ≠ gtC ∧ c ≠ quotC ∧ c ≠ aposC) c hc
  · exact (by decide : ∀ c ∈ quotEnt, c ≠ ltC ∧ c ≠ gtC ∧ c ≠ quotC ∧ c ≠ aposC) c hc
  · exact (by decide : ∀ c ∈ aposEnt, c ≠ ltC ∧ c ≠ gtC ∧ c ≠ quotC ∧ c ≠ aposC) c hc
  · have : c = x := by simpa using hc
    subst this
    exact ⟨h2, h3, h4, h5⟩

theorem escAll_not_special (s : List Char) :
    ∀ c ∈ escAll s, c ≠ ltC ∧ c ≠ gtC ∧ c ≠ quotC ∧ c ≠ aposC := by
  induction s with
  | nil => intro c hc; simp [escAll] at hc
  | cons x s ih =>
    intro c hc
    rw [show escAll (x :: s) = escChar x ++ escAll s from rfl, List.mem_append] at hc
    rcases hc with hc | hc
    · exact escChar_not_special x c hc
    · exact ih c hc

/-- C10: `MovieCard.escapeHtml` maps `null`/`undefined` and the empty string to
`""` and rewrites every other string character by character, replacing each of
`&`, `<`, `>`, `"`, `'` with its HTML entity (`escAll`/`escChar` is that
per-character table); consequently its output — in particular every movie
title and overview interpolated into `MovieCard.generateHTML` — contains no
unescaped `<`, `>`, `"` or `'` at all. -/
theorem escapeHtml_escapes_specials (s : List Char) :
    MovieCard.escapeHtml none = [] ∧
    MovieCard.escapeHtml (some []) = [] ∧
    MovieCard.escapeHtml (some s) = escAll s ∧
    ∀ c ∈ MovieCard.escapeHtml (some s),
      c ≠ ltC ∧ c ≠ gtC ∧ c ≠ quotC ∧ c ≠ aposC := by
  have hmain : MovieCard.escapeHtml (some s) = escAll s := by
    by_cases hs : s = []
    · subst hs; rfl
    · show (if s = [] then [] else escapeCore s) = escAll s
      rw [if_neg hs, escapeCore_eq_escAll]
  refine ⟨rfl, rfl, hmain, ?_⟩
  intro c hc
  rw [hmain] at hc
  exact escAll_not_special s c hc

theorem escapeHtml_escapes_specials_witness :
    MovieCard.escapeHtml (some [ltC]) = escAll [ltC] ∧
    (ampC ≠ ltC ∧ ampC ≠ gtC ∧ ampC ≠ quotC ∧ ampC ≠ aposC) :=
  ⟨(escapeHtml_escapes_specials [ltC]).2.2.1,
   (escapeHtml_escapes_specials [ltC]).2.2.2 ampC (by decide)⟩

/-- C7: the claim says every card renders a present numeric score to one
decimal (so `formatRating(0) = "0.0"`), and the repository's own test
("should handle zero rating") expects `"0.0"`; `MovieCard.formatRating` does
behave that way, but the feed controllers' inline card formula
(`cardRating`, from `SearchPage.createMovieCard` / `NowPlayingPage.createMovieCard`)
uses JS truthiness, so a present score of `0` renders as `"N/A"`. The other
concrete values of the claim hold in both implementations. -/
theorem zero_rating_divergence :
    cardRating (JSNum.num 0) = "N/A" ∧
    MovieCard.formatRating (JSNum.num 0) = "0.0" ∧
    ("N/A" : String) ≠ "0.0" ∧
    cardRating (JSNum.num (mkRat 7555 1000)) = "7.6" ∧
    MovieCard.formatRating (JSNum.num (mkRat 7555 1000)) = "7.6" ∧
    cardRating JSNum.null = "N/A" ∧
    MovieCard.formatRating JSNum.null = "N/A" ∧
    MovieCard.formatRating JSNum.undefined = "N/A" ∧
    MovieCard.formatRating JSNum.nan = "N/A" := by decide

/-- C9: `Modal.open` called while the modal is already open is a complete
no-op: the early return `if (this.isOpen) return;` fires before any mutation,
so the body content, the open flag, the overlay visibility and the scroll lock
all keep their values. -/
theorem modal_open_noop_when_open (content : String) (m : ModalState)
    (h : m.isOpen = true) : Modal.openModal content m = m := by
  simp [Modal.openModal, h]

theorem modal_open_noop_when_open_witness :
    Modal.openModal "x" { ModalState.mk0 with isOpen := true } =
      { ModalState.mk0 with isOpen := true } :=
  modal_open_noop_when_open "x" { ModalState.mk0 with isOpen := true } rfl

/-- C2: the claim requires late detail-aggregation results to be detected and
discarded, but `Modal.setContent` overwrites the modal body unconditionally
and `openMovieDetails` applies its result with no id or loading-state check.
Failing run: open movie 1, close the modal, open movie 2, movie 2's aggregation
resolves (modal shows movie 2's panel), then movie 1's late aggregation
resolves — the final body is movie 1's panel while movie 2's modal is open.
A second run shows a late resolution rewriting the body of a closed modal. -/
theorem late_resolution_overwrites :
    (runAgg AggSys.init
        [.openD 1, .closeM, .openD 2, .settleD 2 .ok, .settleD 1 .ok]).modal.body
      = detailsContent 1 ∧
    (runAgg AggSys.init
        [.openD 1, .closeM, .openD 2, .settleD 2 .ok, .settleD 1 .ok]).modal.isOpen
      = true ∧
    detailsContent 1 ≠ detailsContent 2 ∧
    (runAgg AggSys.init
        [.openD 1, .closeM, .openD 2, .settleD 2 .ok, .settleD 1 .ok]).pendingAgg
      = [] ∧
    (runAgg AggSys.init [.openD 1, .closeM, .settleD 1 .ok]).modal.body
      = detailsContent 1 ∧
    (runAgg AggSys.init [.openD 1, .closeM, .settleD 1 .ok]).modal.isOpen
      = false := by decide

/-- C8 counterexample: the shared truncation is not what the claim states.
With 119 `A`s, a space, then 10 `B`s (length 130 > 120),
`SearchPage.truncateText` keeps the trailing space right before the ellipsis
(no whitespace trimming), unlike `MovieCard.truncateOverview` which trims it.
And with 119 `A`s followed by the surrogate pair U+D83D U+DE00 (length 121),
both helpers cut between the two surrogate halves: a well-formed UTF-16 input
yields an ill-formed output, so neither is code-point-safe. -/
theorem truncation_claim_cex :
    SearchPage.truncateText (List.replicate 119 65 ++ 32 :: List.replicate 10 66) 120
      = List.replicate 119 65 ++ 32 :: ellipsisU ∧
    MovieCard.truncateOverview (List.replicate 119 65 ++ 32 :: List.replicate 10 66) 120
      = List.replicate 119 65 ++ ellipsisU ∧
    isJsWhitespace 32 = true ∧
    wellFormedUtf16 (List.replicate 119 65 ++ [55357, 56832]) = true ∧
    wellFormedUtf16
      (SearchPage.truncateText (List.replicate 119 65 ++ [55357, 56832]) 120) = false ∧
    wellFormedUtf16
      (MovieCard.truncateOverview (List.replicate 119 65 ++ [55357, 56832]) 120) = false := by
  decide

/-- C4 counterexample: commit `"q1"` (its page-1 fetch goes in flight), commit
`"q2"` while that fetch is still pending (the reset happens but the in-flight
flag suppresses `q2`'s fetch), then `q1`'s fetch resolves with item 7. The
only remote fetch ever issued was for `q1`, yet after the system quiesces the
result list under active query `"q2"` holds that fetch's item — residue from
`q1`. -/
theorem setQuery_pending_residue :
    (runFeed .search Sys.init
        [.commit "q1", .commit "q2",
         .settle (.ok { results := [7], page := 1, total_pages := 5 })]).st.searchQuery
      = "q2" ∧
    (runFeed .search Sys.init
        [.commit "q1", .commit "q2",
         .settle (.ok { results := [7], page := 1, total_pages := 5 })]).st.searchResults
      = [7] ∧
    (runFeed .search Sys.init
        [.commit "q1", .commit "q2",
         .settle (.ok { results := [7], page := 1, total_pages := 5 })]).fetchLog
      = [("q1", 1)] ∧
    (runFeed .search Sys.init
        [.commit "q1", .commit "q2",
         .settle (.ok { results := [7], page := 1, total_pages := 5 })]).pending
      = [] := by decide

theorem guardBlocks_false_isLoading {k : Kind} {st : FeedState}
    (h : guardBlocks k st = false) : st.isLoading = false := by
  cases k <;> simp [guardBlocks] at h
  · exact h.1
  · exact h.1.1

theorem flightInv_invoke (k : Kind) (s : Sys) (h : FlightInv s) :
    FlightInv (invokeFetch k s) := by
  unfold invokeFetch
  by_cases hg : guardBlocks k s.st
  · simpa [hg] using h
  · have hg' : guardBlocks k s.st = false := by simpa using hg
    have hl : s.st.isLoading = false := guardBlocks_false_isLoading hg'
    unfold FlightInv at h ⊢
    simp [hg', hl] at h ⊢
    simp [h]

theorem flightInv_settle (k : Kind) (out : FetchOutcome) (s : Sys)
    (h : FlightInv s) : FlightInv (settleFetch k out s) := by
  unfold settleFetch
  cases hp : s.pending with
  | nil => exact h
  | cons f rest =>
    have hl : s.st.isLoading = true := by
      by_contra hl'
      have hl'' : s.st.isLoading = false := by simpa using hl'
      unfold FlightInv at h
      simp [hp, hl''] at h
    have hr : rest = [] := by
      unfold FlightInv at h
      simp [hp, hl] at h
      exact h
    cases out with
    | ok data =>
      by_cases he : data.results.isEmpty <;>
        simp [FlightInv, hp, he, hr]
    | err => simp [FlightInv, hp, hr]

theorem flightInv_perform (q : String) (s : Sys) (h : FlightInv s) :
    FlightInv (SearchPage.performSearch q s) := by
  unfold SearchPage.performSearch
  cases hq : q == s.st.searchQuery with
  | true => simpa [hq] using h
  | false =>
    simp only [hq, Bool.false_eq_true, if_false]
    exact flightInv_invoke .search _ h

theorem flightInv_step (k : Kind) (s : Sys) (e : Ev) (h : FlightInv s) :
    FlightInv (stepFeed k s e) := by
  cases e with
  | invoke => exact flightInv_invoke k s h
  | settle out => exact flightInv_settle k out s h
  | commit q =>
    cases k with
    | search => exact flightInv_perform q s h
    | browse => exact h

theorem flightInv_run (k : Kind) (evs : List Ev) (s : Sys) (h : FlightInv s) :
    FlightInv (runFeed k s evs) := by
  induction evs generalizing s with
  | nil => exact h
  | cons e evs ih => exact ih (stepFeed k s e) (flightInv_step k s e h)

/-- C1: for every feed controller (browse and search) and every event-loop
interleaving of continuation triggers, fetch settlements and query commits,
at most one remote page fetch is in flight at any time; the in-flight flag
`isLoading` exactly accounts for it (set when and only when one fetch is
pending: set before the remote call, gating re-entry at the top of the
operation, and cleared only when the call settles). -/
theorem feed_single_fetch_in_flight (k : Kind) (evs : List Ev) :
    (runFeed k Sys.init evs).pending.length ≤ 1 ∧
    (runFeed k Sys.init evs).pending.length =
      (if (runFeed k Sys.init evs).st.isLoading then 1 else 0) := by
  have h : FlightInv (runFeed k Sys.init evs) :=
    flightInv_run k evs Sys.init (by rfl)
  refine ⟨?_, h⟩
  rw [h]
  split <;> simp

/-- C3: when the remote page fetch rejects, the `catch` branch only shows the
error message and the `finally` branch clears `isLoading`: the result list,
cursor, `hasMorePages` and active query are exactly as before the call, an
error signal is emitted, and the in-flight flag is cleared on every exit path
(error or success), so a later continuation trigger can retry. -/
theorem fetch_failure_preserves_state (k : Kind) (s : Sys)
    (f : String × Nat) (rest : List (String × Nat))
    (hp : s.pending = f :: rest) :
    (settleFetch k .err s).st.searchResults = s.st.searchResults ∧
    (settleFetch k .err s).st.currentPage = s.st.currentPage ∧
    (settleFetch k .err s).st.hasMorePages = s.st.hasMorePages ∧
    (settleFetch k .err s).st.searchQuery = s.st.searchQuery ∧
    (settleFetch k .err s).signals = s.signals ++ [.errorShown] ∧
    (∀ out : FetchOutcome, (settleFetch k out s).st.isLoading = false) := by
  refine ⟨?_, ?_, ?_, ?_, ?_, ?_⟩
  · simp [settleFetch, hp]
  · simp [settleFetch, hp]
  · simp [settleFetch, hp]
  · simp [settleFetch, hp]
  · simp [settleFetch, hp]
  · intro out
    cases out with
    | ok data =>
      simp only [settleFetch, hp]
      split <;> rfl
    | err => simp [settleFetch, hp]

theorem fetch_failure_preserves_state_witness :
    (settleFetch .search .err
        { Sys.init with st := { FeedState.mk0 with isLoading := true },
                        pending := [("q", 1)] }).st.searchResults =
      ({ Sys.init with st := { FeedState.mk0 with isLoading := true },
                       pending := [("q", 1)] } : Sys).st.searchResults ∧
    (settleFetch .search .err
        { Sys.init with st := { FeedState.mk0 with isLoading := true },
                        pending := [("q", 1)] }).st.currentPage =
      ({ Sys.init with st := { FeedState.mk0 with isLoading := true },
                       pending := [("q", 1)] } : Sys).st.currentPage ∧
    (settleFetch .search .err
        { Sys.init with st := { FeedState.mk0 with isLoading := true },
                        pending := [("q", 1)] }).st.hasMorePages =
      ({ Sys.init with st := { FeedState.mk0 with isLoading := true },
                       pending := [("q", 1)] } : Sys).st.hasMorePages ∧
    (settleFetch .search .err
        { Sys.init with st := { FeedState.mk0 with isLoading := true },
                        pending := [("q", 1)] }).st.searchQuery =
      ({ Sys.init with st := { FeedState.mk0 with isLoading := true },
                       pending := [("q", 1)] } : Sys).st.searchQuery ∧
    (settleFetch .search .err
        { Sys.init with st := { FeedState.mk0 with isLoading := true },
                        pending := [("q", 1)] }).signals =
      ({ Sys.init with st := { FeedState.mk0 with isLoading := true },
                       pending := [("q", 1)] } : Sys).signals ++ [.errorShown] ∧
    (∀ out : FetchOutcome,
      (settleFetch .search out
          { Sys.init with st := { FeedState.mk0 with isLoading := true },
                          pending := [("q", 1)] }).st.isLoading = false) :=
  fetch_failure_preserves_state .search
    { Sys.init with st := { FeedState.mk0 with isLoading := true },
                    pending := [("q", 1)] }
    ("q", 1) [] rfl

theorem invoke_noop_of_no_more (k : Kind) (s : Sys)
    (h : s.st.hasMorePages = false) : invokeFetch k s = s := by
  have hg : guardBlocks k s.st = true := by
    cases k <;> simp [guardBlocks, h]
  simp [invokeFetch, hg]

theorem run_invokes_noop (k : Kind) (s : Sys) (n : Nat)
    (h : s.st.hasMorePages = false) :
    runFeed k s (List.replicate n .invoke) = s := by
  induction n with
  | zero => rfl
  | succ n ih =>
    rw [List.replicate_succ]
    show runFeed k (stepFeed k s .invoke) (List.replicate n .invoke) = s
    rw [show stepFeed k s .invoke = invokeFetch k s from rfl,
        invoke_noop_of_no_more k s h, ih]

theorem perform_noop_when_same (q : String) (t : Sys)
    (h : t.st.searchQuery = q) : SearchPage.performSearch q t = t := by
  simp [SearchPage.performSearch, h]

/-- C5: after a successful fetch of the page the cursor was at whose response
reports that page as the last one (`pageNumber = totalPages`, e.g. 3 of 3,
nonempty results), `hasMorePages` becomes `false` (the incremented cursor
`p + 1` exceeds `total_pages = p`), the fetch leaves the in-flight set, and any
number of subsequent continuation triggers leaves the system unchanged — no
further remote fetch is ever issued. -/
theorem feed_stops_at_total_pages (k : Kind) (s : Sys) (q : String) (p : Nat)
    (data : PageData) (hp : s.pending = [(q, p)]) (hcur : s.st.currentPage = p)
    (_hpage : data.page = p) (htot : data.total_pages = p)
    (hne : data.results ≠ []) :
    (settleFetch k (.ok data) s).st.hasMorePages = false ∧
    (settleFetch k (.ok data) s).pending = [] ∧
    ∀ n, runFeed k (settleFetch k (.ok data) s) (List.replicate n .invoke) =
      settleFetch k (.ok data) s := by
  have he : data.results.isEmpty = false := by
    cases hres : data.results with
    | nil => exact absurd hres hne
    | cons a l => rfl
  have hmore : (settleFetch k (.ok data) s).st.hasMorePages = false := by
    simp [settleFetch, hp, he, hcur, htot]
  refine ⟨hmore, ?_, ?_⟩
  · simp [settleFetch, hp, he]
  · intro n
    exact run_invokes_noop k _ n hmore


theorem feed_stops_at_total_pages_witness :
    (settleFetch .search (.ok lastPageData) sysAtPage3).st.hasMorePages = false ∧
    (settleFetch .search (.ok lastPageData) sysAtPage3).pending = [] ∧
    ∀ n, runFeed .search (settleFetch .search (.ok lastPageData) sysAtPage3)
        (List.replicate n .invoke) =
      settleFetch .search (.ok lastPageData) sysAtPage3 :=
  feed_stops_at_total_pages .search sysAtPage3 "dune" 3 lastPageData
    rfl rfl rfl rfl (by decide)

/-- C6: committing the same query twice in a row is idempotent. From an idle
state with a different active query, `performSearch q` resets state and issues
exactly one remote fetch (for page 1 of `q`); the immediate second
`performSearch q` hits the `query === this.searchQuery` early return and is a
complete no-op, so the two commits together issue exactly one fetch. -/
theorem setQuery_twice_one_fetch (s : Sys) (q : String) (hq : q ≠ "")
    (hnew : q ≠ s.st.searchQuery) (hidle : s.st.isLoading = false) :
    SearchPage.performSearch q (SearchPage.performSearch q s) =
      SearchPage.performSearch q s ∧
    (SearchPage.performSearch q s).fetchLog = s.fetchLog ++ [(q, 1)] := by
  constructor
  · have hq1 : (SearchPage.performSearch q s).st.searchQuery = q := by
      simp [SearchPage.performSearch, hnew, invokeFetch, guardBlocks, hidle, hq]
    exact perform_noop_when_same q _ hq1
  · simp [SearchPage.performSearch, hnew, invokeFetch, guardBlocks, hidle, hq]

theorem setQuery_twice_one_fetch_witness :
    SearchPage.performSearch "dune"
        (SearchPage.performSearch "dune" Sys.init) =
      SearchPage.performSearch "dune" Sys.init ∧
    (SearchPage.performSearch "dune" Sys.init).fetchLog =
      Sys.init.fetchLog ++ [("dune", 1)] :=
  setQuery_twice_one_fetch Sys.init "dune" (by decide) (by decide) rfl

theorem queryResetInv_invoke (q : String)
    (base : List ((String × Nat) × List Item)) (t : Sys)
    (h : QueryResetInv q base t) :
    QueryResetInv q base (invokeFetch .search t) := by
  unfold invokeFetch
  by_cases hg : guardBlocks .search t.st
  · simpa [hg] using h
  · rw [if_neg hg]
    obtain ⟨hqq, hpend, L, hsl, hsr, hLq⟩ := h
    refine ⟨hqq, ?_, L, hsl, hsr, hLq⟩
    intro f hf
    rcases List.mem_append.mp hf with hf | hf
    · exact hpend f hf
    · have : f = (t.st.searchQuery, t.st.currentPage) := by simpa using hf
      rw [this]
      exact hqq

theorem queryResetInv_settle (q : String)
    (base : List ((String × Nat) × List Item)) (out : FetchOutcome) (t : Sys)
    (h : QueryResetInv q base t) :
    QueryResetInv q base (settleFetch .search out t) := by
  obtain ⟨hqq, hpend, L, hsl, hsr, hLq⟩ := h
  cases hp : t.pending with
  | nil =>
    have hred : settleFetch .search out t = t := by
      simp [settleFetch, hp]
    rw [hred]
    exact ⟨hqq, hpend, L, hsl, hsr, hLq⟩
  | cons f rest =>
    have hfq : f.1 = q := hpend f (by rw [hp]; exact List.mem_cons_self f rest)
    have hrest : ∀ g ∈ rest, g.1 = q := fun g hg =>
      hpend g (by rw [hp]; exact List.mem_cons_of_mem f hg)
    cases out with
    | ok data =>
      cases hres : data.results with
      | nil =>
        have hred : settleFetch .search (.ok data) t =
            { t with
                st := { t.st with hasMorePages := false, isLoading := false },
                pending := rest,
                signals := t.signals ++
                  (if t.st.currentPage = 1 then [Signal.noResults] else []) } := by
          simp [settleFetch, hp, hres]
        rw [hred]
        exact ⟨hqq, hrest, L, hsl, hsr, hLq⟩
      | cons a l =>
        have hred : settleFetch .search (.ok data) t =
            { t with
                st := { t.st with
                  searchResults := t.st.searchResults ++ (a :: l),
                  currentPage := t.st.currentPage + 1,
                  hasMorePages := decide (t.st.currentPage + 1 ≤ data.total_pages),
                  isLoading := false },
                pending := rest,
                settledLog := t.settledLog ++ [(f, a :: l)],
                signals := t.signals ++ [.rendered (a :: l)] } := by
          simp [settleFetch, hp, hres]
        rw [hred]
        refine ⟨hqq, hrest, L ++ [(f, a :: l)], ?_, ?_, ?_⟩
        · show t.settledLog ++ [(f, a :: l)] = base ++ (L ++ [(f, a :: l)])
          rw [hsl, List.append_assoc]
        · show t.st.searchResults ++ (a :: l) =
            ((L ++ [(f, a :: l)]).map Prod.snd).flatten
          rw [hsr, List.map_append, List.flatten_append]
          simp
        · intro e he
          rcases List.mem_append.mp he with he | he
          · exact hLq e he
          · have he2 : e = (f, a :: l) := by simpa using he
            rw [he2]
            exact hfq
    | err =>
      have hred : settleFetch .search .err t =
          { t with
              st := { t.st with isLoading := false },
              pending := rest,
              signals := t.signals ++ [.errorShown] } := by
        simp [settleFetch, hp]
      rw [hred]
      exact ⟨hqq, hrest, L, hsl, hsr, hLq⟩

theorem queryResetInv_step (q : String)
    (base : List ((String × Nat) × List Item)) (t : Sys) (e : Ev)
    (he : isCommit e = false) (h : QueryResetInv q base t) :
    QueryResetInv q base (stepFeed .search t e) := by
  cases e with
  | invoke => exact queryResetInv_invoke q base t h
  | settle out => exact queryResetInv_settle q base out t h
  | commit q' => simp [isCommit] at he

theorem queryResetInv_run (q : String)
    (base : List ((String × Nat) × List Item)) (evs : List Ev) (t : Sys)
    (hnc : ∀ e ∈ evs, isCommit e = false) (h : QueryResetInv q base t) :
    QueryResetInv q base (runFeed .search t evs) := by
  induction evs generalizing t with
  | nil => exact h
  | cons e evs ih =>
    exact ih (stepFeed .search t e)
      (fun e' he' => hnc e' (List.mem_cons_of_mem e he'))
      (queryResetInv_step q base t e (hnc e (List.mem_cons_self e evs)) h)

theorem queryResetInv_perform (q : String) (s : Sys) (hq : q ≠ "")
    (hnew : q ≠ s.st.searchQuery) (hquiet : s.pending = [])
    (hidle : s.st.isLoading = false) :
    QueryResetInv q s.settledLog (SearchPage.performSearch q s) ∧
    (SearchPage.performSearch q s).st.searchResults = [] := by
  constructor
  · refine ⟨?_, ?_, [], ?_, ?_, ?_⟩
    · simp [SearchPage.performSearch, hnew, invokeFetch, guardBlocks, hidle, hq]
    · intro f hf
      simp [SearchPage.performSearch, hnew, invokeFetch, guardBlocks, hidle,
        hq, hquiet] at hf
      rw [hf]
    · simp [SearchPage.performSearch, hnew, invokeFetch, guardBlocks, hidle, hq]
    · simp [SearchPage.performSearch, hnew, invokeFetch, guardBlocks, hidle, hq]
    · intro e he
      simp at he
  · simp [SearchPage.performSearch, hnew, invokeFetch, guardBlocks, hidle, hq]

/-- C4 (amended): committing `q` performs the full state reset before any new
fetch — immediately after the commit the result list is empty, the cursor is 1
and `hasMorePages` is reset — and, provided no fetch was in flight at the
moment of the commit, every batch that subsequently enters the result list
(over any commit-free event interleaving) was delivered by a fetch issued for
query `q`: the completed list is exactly the concatenation of `q`-tagged
batches, with no residue from the previous query. (The unamended claim also
covered a commit issued while the previous query's fetch was still pending;
the counterexample shows the late response is then appended to the reset
list.) -/
theorem setQuery_reset_no_residue (s : Sys) (q : String) (evs : List Ev)
    (hq : q ≠ "") (hnew : q ≠ s.st.searchQuery)
    (hquiet : s.pending = []) (hidle : s.st.isLoading = false)
    (hnc : ∀ e ∈ evs, isCommit e = false) :
    (SearchPage.performSearch q s).st.searchResults = [] ∧
    ∃ L, (runFeed .search (SearchPage.performSearch q s) evs).settledLog =
        s.settledLog ++ L ∧
      (runFeed .search (SearchPage.performSearch q s) evs).st.searchResults =
        (L.map Prod.snd).flatten ∧
      ∀ e ∈ L, e.1.1 = q := by
  obtain ⟨hinv, hempty⟩ :=
    queryResetInv_perform q s hq hnew hquiet hidle
  obtain ⟨hqq, hpend, L, hsl, hsr, hLq⟩ :=
    queryResetInv_run q s.settledLog evs (SearchPage.performSearch q s) hnc hinv
  exact ⟨hempty, L, hsl, hsr, hLq⟩


theorem setQuery_reset_no_residue_witness :
    (SearchPage.performSearch "q2" sysActiveQ1).st.searchResults = [] ∧
    ∃ L, (runFeed .search (SearchPage.performSearch "q2" sysActiveQ1)
        [.settle (.ok { results := [5], page := 1, total_pages := 2 })]).settledLog =
        sysActiveQ1.settledLog ++ L ∧
      (runFeed .search (SearchPage.performSearch "q2" sysActiveQ1)
        [.settle (.ok { results := [5], page := 1, total_pages := 2 })]).st.searchResults =
        (L.map Prod.snd).flatten ∧
      ∀ e ∈ L, e.1.1 = "q2" :=
  setQuery_reset_no_residue sysActiveQ1 "q2"
    [.settle (.ok { results := [5], page := 1, total_pages := 2 })]
    (by decide) (by decide) rfl rfl (by decide)

/-- C8 (amended): both truncation helpers return the input unchanged when its
UTF-16 length is at most `N` (no ellipsis at the exact boundary) and otherwise
truncate to the first `N` UTF-16 code units and append `"..."`;
`MovieCard.truncateOverview` additionally trims whitespace from the truncated
prefix before appending, while `SearchPage.truncateText` appends directly with
no trimming; the cut counts UTF-16 units, not code points, so it can split a
surrogate pair (not code-point-safe). Truncating 121 `A`s at 120 yields the
first 120 `A`s plus the ellipsis: length 123, ending in `"..."`. -/
theorem truncation_amended (t : U16Str) (N : Nat) :
    (t.length ≤ N →
      SearchPage.truncateText t N = t ∧ MovieCard.truncateOverview t N = t) ∧
    (N < t.length →
      SearchPage.truncateText t N = t.take N ++ ellipsisU ∧
      MovieCard.truncateOverview t N = trimU16 (t.take N) ++ ellipsisU ∧
      (SearchPage.truncateText t N).length = N + 3) ∧
    (SearchPage.truncateText (List.replicate 121 65) 120 =
        List.replicate 120 65 ++ ellipsisU ∧
      (SearchPage.truncateText (List.replicate 121 65) 120).length = 123 ∧
      MovieCard.truncateOverview (List.replicate 121 65) 120 =
        List.replicate 120 65 ++ ellipsisU) := by
  refine ⟨?_, ?_, by decide⟩
  · intro hle
    constructor
    · rw [SearchPage.truncateText, if_neg (by omega)]
    · rw [MovieCard.truncateOverview, if_pos hle]
  · intro hlt
    have h1 : SearchPage.truncateText t N = t.take N ++ ellipsisU := by
      rw [SearchPage.truncateText, if_pos (by omega)]
    refine ⟨h1, ?_, ?_⟩
    · rw [MovieCard.truncateOverview, if_neg (by omega)]
    · rw [h1, List.length_append, List.length_take]
      have : min N t.length = N := Nat.min_eq_left (Nat.le_of_lt hlt)
      rw [this]
      rfl

theorem truncation_amended_witness :
    (SearchPage.truncateText [65] 3 = [65] ∧
      MovieCard.truncateOverview [65] 3 = [65]) ∧
    (SearchPage.truncateText (List.replicate 121 65) 120 =
        (List.replicate 121 65).take 120 ++ ellipsisU ∧
      MovieCard.truncateOverview (List.replicate 121 65) 120 =
        trimU16 ((List.replicate 121 65).take 120) ++ ellipsisU ∧
      (SearchPage.truncateText (List.replicate 121 65) 120).length = 120 + 3) :=
  ⟨(truncation_amended [65] 3).1 (by decide),
   (truncation_amended (List.replicate 121 65) 120).2.1 (by decide)⟩
